import Mathlib

/-!
Verification development for the UAV-assisted MEC repository.

The definitions below are shallow embeddings of the Python source files
`modules/optimization.py`, `modules/energy_calculator.py`,
`modules/proposed_algorithm.py`, `modules/system_model.py` and
`modules/utils.py`.  Trajectory-side code (which the source runs on Python
floats but whose claims are exact arithmetic facts) is embedded over `ℚ`
so that it stays executable and decidable; energy-side code, which uses
square roots, is embedded over `ℝ` with `Real.sqrt`.
-/

namespace UavMec

/-- `np.linspace(a, b, n)`: `n` evenly spaced points from `a` to `b`
inclusive.  For `n = 1` numpy returns `[a]`; for `n = 0` the empty list. -/
def linspace (a b : ℚ) (n : ℕ) : List ℚ :=
  if n = 1 then [a]
  else (List.range n).map (fun i : ℕ => a + (b - a) * (i : ℚ) / ((n : ℚ) - 1))

/-- Outcome handed back by the external convex backend (cvxpy/SCS) for the
trajectory subproblem: the reported status string together with the values
of the decision variables `x`, `y`.  The solve itself is the external
collaborator; `optimize_trajectory` only branches on the status. -/
structure SolverOutcome where
  status : String
  xsol : List ℚ
  ysol : List ℚ

/-- The source's acceptance test
`prob.status not in ["optimal", "optimal_inaccurate"]`, stated positively. -/
def statusAccepted (out : SolverOutcome) : Prop :=
  out.status = "optimal" ∨ out.status = "optimal_inaccurate"

instance : DecidablePred statusAccepted := fun out => by
  unfold statusAccepted; infer_instance

/-- The fallback branch of `optimize_trajectory` (optimization.py lines
68-71): `x_fallback = np.linspace(0, 10, N)`, `y_fallback = np.linspace(0, 0, N)`. -/
def fallbackTrajectory (N : ℕ) : List ℚ × List ℚ :=
  (linspace 0 10 N, linspace 0 0 N)

/-- `optimize_trajectory` (optimization.py lines 26-73), abstracted over the
convex backend's outcome: if the reported status is accepted the variable
values are returned, otherwise the straight-line fallback.  The convex
objective (squared distances to devices plus smoothness regularization)
only influences which assignment the external solver reports, so it is not
re-modelled here; the constraint set the solver enforces is embedded as
`trajConstraintsOk` below. -/
def optimizeTrajectory (N : ℕ) (out : SolverOutcome) : List ℚ × List ℚ :=
  if statusAccepted out then (out.xsol, out.ysol) else fallbackTrajectory N

/-- Squared per-slot speed of slot `i ≥ 1`:
`((x[i]-x[i-1])/delta)^2 + ((y[i]-y[i-1])/delta)^2`. -/
def speedSq (delta : ℚ) (xs ys : List ℚ) (i : ℕ) : ℚ :=
  ((xs.getD i 0 - xs.getD (i - 1) 0) / delta) ^ 2 +
    ((ys.getD i 0 - ys.getD (i - 1) 0) / delta) ^ 2

/-- The constraint set of the trajectory subproblem (optimization.py lines
39-49): boundary pinning `x[0]=0, y[0]=0, x[-1]=10, y[-1]=0` and, for each
slot `1 ≤ i < N`, the second-order-cone bound `‖Δp‖/δ ≤ Vmax`, stated here
in the equivalent squared form (both sides are nonnegative), with
`δ = T/N`.  Also records that the solver's assignment has `N` entries per
coordinate. -/
def trajConstraintsOk (N : ℕ) (T Vmax : ℚ) (xs ys : List ℚ) : Prop :=
  xs.length = N ∧ ys.length = N ∧
  xs.getD 0 0 = 0 ∧ ys.getD 0 0 = 0 ∧
  xs.getD (N - 1) 0 = 10 ∧ ys.getD (N - 1) 0 = 0 ∧
  ∀ i ∈ List.range' 1 (N - 1), speedSq (T / N) xs ys i ≤ Vmax ^ 2

instance (N : ℕ) (T Vmax : ℚ) (xs ys : List ℚ) :
    Decidable (trajConstraintsOk N T Vmax xs ys) := by
  unfold trajConstraintsOk; infer_instance

/-- The spec's per-slot velocity bound with tolerance `ε`
(`∀ i, ‖p[i]-p[i-1]‖/delta ≤ Vmax + ε`), in the equivalent squared form. -/
def velBoundOk (N : ℕ) (T Vmax eps : ℚ) (xs ys : List ℚ) : Prop :=
  ∀ i ∈ List.range' 1 (N - 1), speedSq (T / N) xs ys i ≤ (Vmax + eps) ^ 2

instance (N : ℕ) (T Vmax eps : ℚ) (xs ys : List ℚ) :
    Decidable (velBoundOk N T Vmax eps xs ys) := by
  unfold velBoundOk; infer_instance

/-- One segment of `_interpolate_waypoints` (proposed_algorithm.py lines
111-121): `points` samples from `start` toward `q`, parameter
`t = j / max(points-1, 1)`. -/
def segmentPoints (start q : ℚ × ℚ) (pts : ℕ) : List (ℚ × ℚ) :=
  (List.range pts).map (fun j : ℕ =>
    let t : ℚ := (j : ℚ) / ((max (pts - 1) 1 : ℕ) : ℚ)
    (start.1 + t * (q.1 - start.1), start.2 + t * (q.2 - start.2)))

/-- The concatenation of all segments built by the main loop of
`_interpolate_waypoints` (proposed_algorithm.py lines 111-121), with
`points = int(N * time_allocations[i])` (truncation of a nonnegative
value, i.e. the floor). -/
def rawPoints (wps : List (ℚ × ℚ)) (shares : List ℚ) (N : ℕ) : List (ℚ × ℚ) :=
  ((List.range (wps.length - 1)).map (fun i =>
    segmentPoints (wps.getD i (0, 0)) (wps.getD (i + 1) (0, 0))
      (Nat.floor ((N : ℚ) * shares.getD i 0)))).flatten

/-- `ProposedAlgorithm._interpolate_waypoints` (proposed_algorithm.py lines
107-128).  The Python builds the segments, pads to length `N` by repeating
the last point, and truncates to `N`.  When the built list is empty and
`N > 0` the Python `x_traj[-1]` raises an `IndexError`; that case is
`none`.  The separate `x_traj`/`y_traj` lists are modelled as one list of
pairs. -/
def interpolateWaypoints (wps : List (ℚ × ℚ)) (shares : List ℚ) (N : ℕ) :
    Option (List (ℚ × ℚ)) :=
  if rawPoints wps shares N = [] ∧ 0 < N then none
  else some ((rawPoints wps shares N ++
    List.replicate (N - (rawPoints wps shares N).length)
      ((rawPoints wps shares N).getLastD (0, 0))).take N)

/-- The waypoint list hard-coded in `_generate_adaptive_trajectory`
(proposed_algorithm.py lines 40-47). -/
def adaptiveWaypoints : List (ℚ × ℚ) :=
  [(0, 0), (2, 8), (8, 9), (9, 2), (3, 1), (10, 0)]

/-- The time shares hard-coded in `_generate_adaptive_trajectory`
(proposed_algorithm.py line 50): `[0.1, 0.25, 0.4, 0.15, 0.1]`. -/
def adaptiveTimeShares : List ℚ :=
  [1/10, 1/4, 2/5, 3/20, 1/10]

/-- `ProposedAlgorithm._generate_adaptive_trajectory` (proposed_algorithm.py
lines 31-52). -/
def generateAdaptiveTrajectory (N : ℕ) : Option (List (ℚ × ℚ)) :=
  interpolateWaypoints adaptiveWaypoints adaptiveTimeShares N

theorem linspace_length (a b : ℚ) (n : ℕ) (hn : 2 ≤ n) :
    (linspace a b n).length = n := by
  unfold linspace
  rw [if_neg (by omega)]
  simp

theorem linspace_getD (a b : ℚ) (n i : ℕ) (hn : 2 ≤ n) (hi : i < n) :
    (linspace a b n).getD i 0 = a + (b - a) * i / ((n : ℚ) - 1) := by
  unfold linspace
  rw [if_neg (by omega)]
  rw [List.getD_eq_getElem?_getD, List.getElem?_map, List.getElem?_range hi]
  rfl

theorem linspace_diff (a b : ℚ) (n i : ℕ) (hn : 2 ≤ n) (h1 : 1 ≤ i) (h2 : i < n) :
    (linspace a b n).getD i 0 - (linspace a b n).getD (i - 1) 0 =
      (b - a) / ((n : ℚ) - 1) := by
  rw [linspace_getD a b n i hn h2, linspace_getD a b n (i - 1) hn (by omega)]
  have hc : ((i - 1 : ℕ) : ℚ) = (i : ℚ) - 1 := by
    have := Nat.cast_sub (R := ℚ) h1
    simpa using this
  rw [hc]; ring

/-- C5: whenever the convex solver reports a status other than
optimal/optimal_inaccurate, `optimize_trajectory` returns exactly the
straight-line interpolation between the pinned endpoints, without raising
an exception: the result is the fallback `(np.linspace(0,10,N),
np.linspace(0,0,N))`, an `N`-point trajectory whose `i`-th point is the
affine interpolation `(10*i/(N-1), 0)` from `(0,0)` to `(10,0)`. -/
theorem optimizeTrajectory_fallback_straight_line (N : ℕ) (out : SolverOutcome)
    (hN : 2 ≤ N) (h : ¬ statusAccepted out) :
    optimizeTrajectory N out = fallbackTrajectory N ∧
    (optimizeTrajectory N out).1.length = N ∧
    (optimizeTrajectory N out).2.length = N ∧
    (∀ i < N, (optimizeTrajectory N out).1.getD i 0 = 10 * (i : ℚ) / ((N : ℚ) - 1) ∧
              (optimizeTrajectory N out).2.getD i 0 = 0) ∧
    (optimizeTrajectory N out).1.getD 0 0 = 0 ∧
    (optimizeTrajectory N out).2.getD 0 0 = 0 ∧
    (optimizeTrajectory N out).1.getD (N - 1) 0 = 10 ∧
    (optimizeTrajectory N out).2.getD (N - 1) 0 = 0 := by
  have hfb : optimizeTrajectory N out = fallbackTrajectory N := by
    unfold optimizeTrajectory
    rw [if_neg h]
  rw [hfb]
  have hx : ∀ i < N, (fallbackTrajectory N).1.getD i 0 = 10 * (i : ℚ) / ((N : ℚ) - 1) := by
    intro i hi
    show (linspace 0 10 N).getD i 0 = _
    rw [linspace_getD 0 10 N i hN hi]; ring
  have hy : ∀ i < N, (fallbackTrajectory N).2.getD i 0 = 0 := by
    intro i hi
    show (linspace 0 0 N).getD i 0 = _
    rw [linspace_getD 0 0 N i hN hi]; ring
  have hN1 : (0 : ℚ) < (N : ℚ) - 1 := by
    have : (2 : ℚ) ≤ (N : ℚ) := by exact_mod_cast hN
    linarith
  refine ⟨rfl, linspace_length 0 10 N hN, linspace_length 0 0 N hN,
    fun i hi => ⟨hx i hi, hy i hi⟩, ?_, hy 0 (by omega), ?_, hy (N - 1) (by omega)⟩
  · rw [hx 0 (by omega)]; simp
  · rw [hx (N - 1) (by omega)]
    have hc : ((N - 1 : ℕ) : ℚ) = (N : ℚ) - 1 := by
      have := Nat.cast_sub (R := ℚ) (by omega : 1 ≤ N)
      simpa using this
    rw [hc]
    field_simp

/-- Witness for C5 at `N = 5` and an infeasible solver status. -/
theorem optimizeTrajectory_fallback_straight_line_witness :
    2 ≤ 5 ∧ (¬ statusAccepted ⟨"infeasible", [], []⟩) ∧
    (optimizeTrajectory 5 ⟨"infeasible", [], []⟩ = fallbackTrajectory 5 ∧
     (optimizeTrajectory 5 ⟨"infeasible", [], []⟩).1.length = 5 ∧
     (optimizeTrajectory 5 ⟨"infeasible", [], []⟩).2.length = 5 ∧
     (∀ i < 5, (optimizeTrajectory 5 ⟨"infeasible", [], []⟩).1.getD i 0 =
          10 * (i : ℚ) / (((5 : ℕ) : ℚ) - 1) ∧
        (optimizeTrajectory 5 ⟨"infeasible", [], []⟩).2.getD i 0 = 0) ∧
     (optimizeTrajectory 5 ⟨"infeasible", [], []⟩).1.getD 0 0 = 0 ∧
     (optimizeTrajectory 5 ⟨"infeasible", [], []⟩).2.getD 0 0 = 0 ∧
     (optimizeTrajectory 5 ⟨"infeasible", [], []⟩).1.getD (5 - 1) 0 = 10 ∧
     (optimizeTrajectory 5 ⟨"infeasible", [], []⟩).2.getD (5 - 1) 0 = 0) :=
  ⟨by norm_num, by decide,
    optimizeTrajectory_fallback_straight_line 5 ⟨"infeasible", [], []⟩
      (by norm_num) (by decide)⟩

theorem floor_five_halves : Nat.floor ((5 : ℚ) / 2) = 2 := by
  rw [Nat.floor_eq_iff (by norm_num)]; norm_num

theorem floor_three_halves : Nat.floor ((3 : ℚ) / 2) = 1 := by
  rw [Nat.floor_eq_iff (by norm_num)]; norm_num

/-- Concrete evaluation of the adaptive generator's segment loop at
`N = 10`: segment point counts are `[1, 2, 4, 1, 1]`, nine points total. -/
theorem rawPoints_ten_eval :
    rawPoints adaptiveWaypoints adaptiveTimeShares 10 =
      [((0 : ℚ), (0 : ℚ)), (2, 8), (8, 9), (8, 9), (25/3, 20/3),
       (26/3, 13/3), (9, 2), (9, 2), (3, 1)] := by
  norm_num [rawPoints, adaptiveWaypoints, adaptiveTimeShares, segmentPoints,
    List.range_succ, floor_five_halves, floor_three_halves, Nat.floor_one,
    Nat.floor_ofNat]

/-- C8, counterexample: the adaptive trajectory generator at `N = 10`
produces a 10-point trajectory whose final position is `(3, 1)`, not the
configured end coordinate `(10, 0)`: the endpoints are not pinned for the
entire run. -/
theorem adaptive_trajectory_endpoint_not_pinned :
    generateAdaptiveTrajectory 10 =
      some [((0 : ℚ), (0 : ℚ)), (2, 8), (8, 9), (8, 9), (25/3, 20/3),
            (26/3, 13/3), (9, 2), (9, 2), (3, 1), (3, 1)] ∧
    [((0 : ℚ), (0 : ℚ)), (2, 8), (8, 9), (8, 9), (25/3, 20/3),
     (26/3, 13/3), (9, 2), (9, 2), (3, 1), (3, 1)].getLastD (0, 0) = (3, 1) ∧
    [((0 : ℚ), (0 : ℚ)), (2, 8), (8, 9), (8, 9), (25/3, 20/3),
     (26/3, 13/3), (9, 2), (9, 2), (3, 1), (3, 1)].length = 10 ∧
    ((3 : ℚ), (1 : ℚ)) ≠ ((10 : ℚ), (0 : ℚ)) := by
  refine ⟨?_, rfl, rfl, by norm_num⟩
  unfold generateAdaptiveTrajectory interpolateWaypoints
  rw [rawPoints_ten_eval]
  rfl

/-- C8 (amended): every trajectory the waypoint interpolator returns has
length exactly `N` (when it returns one at all rather than failing on an
empty point list), and the trajectory optimizer's fallback has length `N`
with first and last positions pinned to `(0, 0)` and `(10, 0)`; pinning of
the adaptive generator's endpoints does not hold in general. -/
theorem trajectory_length_and_fallback_pinned (wps : List (ℚ × ℚ))
    (shares : List ℚ) (N : ℕ) (tr : List (ℚ × ℚ)) (hN : 2 ≤ N)
    (h : interpolateWaypoints wps shares N = some tr) :
    tr.length = N ∧
    (fallbackTrajectory N).1.length = N ∧
    (fallbackTrajectory N).2.length = N ∧
    (fallbackTrajectory N).1.getD 0 0 = 0 ∧
    (fallbackTrajectory N).2.getD 0 0 = 0 ∧
    (fallbackTrajectory N).1.getD (N - 1) 0 = 10 ∧
    (fallbackTrajectory N).2.getD (N - 1) 0 = 0 := by
  have hlen : tr.length = N := by
    unfold interpolateWaypoints at h
    split at h
    · exact absurd h (by simp)
    · have htr := Option.some_inj.mp h
      subst htr
      simp only [List.length_take, List.length_append, List.length_replicate]
      omega
  have hfall := optimizeTrajectory_fallback_straight_line N ⟨"solver_error", [], []⟩
      hN (by decide)
  have heq : optimizeTrajectory N ⟨"solver_error", [], []⟩ = fallbackTrajectory N :=
    hfall.1
  refine ⟨hlen, ?_, ?_, ?_, ?_, ?_, ?_⟩
  · rw [← heq]; exact hfall.2.1
  · rw [← heq]; exact hfall.2.2.1
  · rw [← heq]; exact hfall.2.2.2.2.1
  · rw [← heq]; exact hfall.2.2.2.2.2.1
  · rw [← heq]; exact hfall.2.2.2.2.2.2.1
  · rw [← heq]; exact hfall.2.2.2.2.2.2.2

/-- Witness for C8 at `N = 10` with the source's hard-coded waypoints. -/
theorem trajectory_length_and_fallback_pinned_witness :
    2 ≤ 10 ∧
    (interpolateWaypoints adaptiveWaypoints adaptiveTimeShares 10 =
      some [((0 : ℚ), (0 : ℚ)), (2, 8), (8, 9), (8, 9), (25/3, 20/3),
            (26/3, 13/3), (9, 2), (9, 2), (3, 1), (3, 1)]) ∧
    ([((0 : ℚ), (0 : ℚ)), (2, 8), (8, 9), (8, 9), (25/3, 20/3),
      (26/3, 13/3), (9, 2), (9, 2), (3, 1), (3, 1)].length = 10 ∧
     (fallbackTrajectory 10).1.length = 10 ∧
     (fallbackTrajectory 10).2.length = 10 ∧
     (fallbackTrajectory 10).1.getD 0 0 = 0 ∧
     (fallbackTrajectory 10).2.getD 0 0 = 0 ∧
     (fallbackTrajectory 10).1.getD (10 - 1) 0 = 10 ∧
     (fallbackTrajectory 10).2.getD (10 - 1) 0 = 0) :=
  ⟨by norm_num,
    by unfold interpolateWaypoints; rw [rawPoints_ten_eval]; rfl,
    trajectory_length_and_fallback_pinned adaptiveWaypoints adaptiveTimeShares 10
      _ (by norm_num)
      (by unfold interpolateWaypoints; rw [rawPoints_ten_eval]; rfl)⟩

/-- C3, counterexample: with the valid parameters `N = 2`, `T = 1`,
`Vmax = 1` the claim fails on the fallback branch.  When the solver
reports `infeasible` (which is what happens when `Vmax` cannot cover the
pinned endpoint distance), `optimize_trajectory` returns the straight
line, whose single slot has velocity `20 > Vmax + ε` even for the very
generous tolerance `ε = 1`. -/
theorem fallback_violates_velocity_bound :
    ¬ statusAccepted ⟨"infeasible", [], []⟩ ∧
    ¬ velBoundOk 2 1 1 1 (optimizeTrajectory 2 ⟨"infeasible", [], []⟩).1
        (optimizeTrajectory 2 ⟨"infeasible", [], []⟩).2 := by
  refine ⟨by decide, ?_⟩
  have heq : optimizeTrajectory 2 ⟨"infeasible", [], []⟩ = fallbackTrajectory 2 := by
    unfold optimizeTrajectory
    rw [if_neg (by decide)]
  rw [heq]
  intro hv
  have h1 := hv 1 (by decide)
  have hx1 : (fallbackTrajectory 2).1.getD 1 0 = 10 := by
    show (linspace 0 10 2).getD 1 0 = 10
    rw [linspace_getD 0 10 2 1 (by norm_num) (by norm_num)]; norm_num
  have hx0 : (fallbackTrajectory 2).1.getD 0 0 = 0 := by
    show (linspace 0 10 2).getD 0 0 = 0
    rw [linspace_getD 0 10 2 0 (by norm_num) (by norm_num)]; norm_num
  have hy1 : (fallbackTrajectory 2).2.getD 1 0 = 0 := by
    show (linspace 0 0 2).getD 1 0 = 0
    rw [linspace_getD 0 0 2 1 (by norm_num) (by norm_num)]; norm_num
  have hy0 : (fallbackTrajectory 2).2.getD 0 0 = 0 := by
    show (linspace 0 0 2).getD 0 0 = 0
    rw [linspace_getD 0 0 2 0 (by norm_num) (by norm_num)]; norm_num
  unfold speedSq at h1
  rw [show (1 : ℕ) - 1 = 0 from rfl, hx1, hx0, hy1, hy0] at h1
  norm_num at h1

/-- C3 (amended): a solver-accepted trajectory (one satisfying the embedded
constraint set, which is what the backend certifies with an
optimal/optimal_inaccurate status) always satisfies the per-slot velocity
bound; the fallback straight line has constant per-slot velocity
`10·N/((N-1)·T)` and satisfies the bound exactly when
`10·N/((N-1)·T) ≤ Vmax + ε`.  In particular for small `Vmax` the returned
fallback violates the bound, so the bound does not hold unconditionally. -/
theorem optimizeTrajectory_velocity_bound_iff (N : ℕ) (T Vmax eps : ℚ)
    (out : SolverOutcome) (hN : 2 ≤ N) (hT : 0 < T) (hV : 0 < Vmax)
    (he : 0 ≤ eps)
    (hsol : statusAccepted out → trajConstraintsOk N T Vmax out.xsol out.ysol) :
    velBoundOk N T Vmax eps (optimizeTrajectory N out).1
        (optimizeTrajectory N out).2 ↔
      (statusAccepted out ∨ 10 * (N : ℚ) / (((N : ℚ) - 1) * T) ≤ Vmax + eps) := by
  have hN1 : (0 : ℚ) < (N : ℚ) - 1 := by
    have : (2 : ℚ) ≤ (N : ℚ) := by exact_mod_cast hN
    linarith
  have hNQ : (0 : ℚ) < (N : ℚ) := by linarith
  by_cases hacc : statusAccepted out
  · unfold optimizeTrajectory
    rw [if_pos hacc]
    constructor
    · intro _; exact Or.inl hacc
    · intro _ i hi
      have hcon := (hsol hacc).2.2.2.2.2.2 i hi
      have : Vmax ^ 2 ≤ (Vmax + eps) ^ 2 := by nlinarith
      linarith
  · unfold optimizeTrajectory
    rw [if_neg hacc]
    have hs : (0 : ℚ) < 10 * (N : ℚ) / (((N : ℚ) - 1) * T) := by positivity
    have hVe : (0 : ℚ) < Vmax + eps := by linarith
    have hspeed : ∀ i ∈ List.range' 1 (N - 1),
        speedSq (T / N) (fallbackTrajectory N).1 (fallbackTrajectory N).2 i =
          (10 * (N : ℚ) / (((N : ℚ) - 1) * T)) ^ 2 := by
      intro i hi
      rw [List.mem_range'_1] at hi
      have h1i : 1 ≤ i := hi.1
      have h2i : i < N := by omega
      unfold speedSq
      have hdx : (fallbackTrajectory N).1.getD i 0 -
          (fallbackTrajectory N).1.getD (i - 1) 0 = 10 / ((N : ℚ) - 1) := by
        show (linspace 0 10 N).getD i 0 - (linspace 0 10 N).getD (i - 1) 0 = _
        rw [linspace_diff 0 10 N i hN h1i h2i]; norm_num
      have hdy : (fallbackTrajectory N).2.getD i 0 -
          (fallbackTrajectory N).2.getD (i - 1) 0 = 0 := by
        show (linspace 0 0 N).getD i 0 - (linspace 0 0 N).getD (i - 1) 0 = _
        rw [linspace_diff 0 0 N i hN h1i h2i]; norm_num
      rw [hdx, hdy]
      rw [show (10 / ((N : ℚ) - 1)) / (T / (N : ℚ)) =
          10 * (N : ℚ) / (((N : ℚ) - 1) * T) by field_simp]
      ring
    constructor
    · intro hv
      have hmem : (1 : ℕ) ∈ List.range' 1 (N - 1) := by
        rw [List.mem_range'_1]; omega
      have := hv 1 hmem
      rw [hspeed 1 hmem] at this
      exact Or.inr ((pow_le_pow_iff_left₀ hs.le hVe.le (by norm_num)).mp this)
    · intro hle i hi
      rcases hle with hle | hle
      · exact absurd hle hacc
      · rw [hspeed i hi]
        exact (pow_le_pow_iff_left₀ hs.le hVe.le (by norm_num)).mpr hle

/-- Witness for the amended C3 at `N = 2`, `T = 1`, `Vmax = 30`, `ε = 0`
and an infeasible solver outcome: the fallback's slot velocity
`10·2/(1·1) = 20` is within the bound exactly because `20 ≤ 30`. -/
theorem optimizeTrajectory_velocity_bound_iff_witness :
    velBoundOk 2 1 30 0 (optimizeTrajectory 2 ⟨"infeasible", [], []⟩).1
        (optimizeTrajectory 2 ⟨"infeasible", [], []⟩).2 ↔
      (statusAccepted ⟨"infeasible", [], []⟩ ∨
        10 * ((2 : ℕ) : ℚ) / ((((2 : ℕ) : ℚ) - 1) * 1) ≤ 30 + 0) :=
  optimizeTrajectory_velocity_bound_iff 2 1 30 0 ⟨"infeasible", [], []⟩
    (by norm_num) (by norm_num) (by norm_num) (by norm_num)
    (fun hacc => absurd hacc (by decide))

/-- A value held in the `simulation` section of the YAML configuration:
either an already-numeric scalar or some other scalar (e.g. a string),
kept as raw text. -/
inductive ConfigValue where
  | num (q : ℚ)
  | raw (s : String)
deriving DecidableEq

/-- The error type the spec's error taxonomy prescribes for configuration
loading (a required parameter missing or non-numeric). -/
inductive ConfigError where
  | missingParam (name : String)
  | nonNumeric (name : String)
deriving DecidableEq

/-- Python's builtin `float(...)` applied to one config value, abstracted
over the collaborator's string parser `pf` (so `pf s = none` models
`float(s)` raising `ValueError`/`TypeError`).  `load_config` wraps this
call in `try: ... except (ValueError, TypeError): pass`, so an unparseable
value is kept unchanged. -/
def convertValue (pf : String → Option ℚ) (v : ConfigValue) : ConfigValue :=
  match v with
  | .num q => .num q
  | .raw s =>
    match pf s with
    | some q => .num q
    | none => .raw s

/-- `load_config` (utils.py lines 6-17), from the parsed `simulation`
mapping onward: each entry is float-converted when possible and kept
as-is otherwise.  The `Except` wrapper records that the function has no
failure path at the parameter level: no required-field check is made and
no error is ever produced for a non-numeric entry. -/
def loadConfig (pf : String → Option ℚ) :
    List (String × ConfigValue) → Except ConfigError (List (String × ConfigValue))
  | [] => Except.ok []
  | (k, v) :: rest =>
    match loadConfig pf rest with
    | Except.ok r => Except.ok ((k, convertValue pf v) :: r)
    | Except.error e => Except.error e

/-- C9, counterexample: a mapping whose `alpha0` entry is the non-numeric
string `oops` (with the float parser failing on it, as `float('oops')`
does) is returned as-is with an `ok` outcome — the loader does not surface
any `ConfigurationError`, and the returned mapping still contains the
non-numeric entry.  An empty mapping (every required field missing) is
likewise returned as `ok`. -/
theorem loadConfig_returns_non_numeric_entry :
    loadConfig (fun _ => none) [("alpha0", ConfigValue.raw ("oops"))] =
      Except.ok [("alpha0", ConfigValue.raw ("oops"))] ∧
    loadConfig (fun _ => none) [] =
      Except.ok ([] : List (String × ConfigValue)) :=
  ⟨rfl, rfl⟩

/-- C9 (amended): configuration loading never fails: for every parser and
every input mapping it returns `ok`, converting each entry whose value the
float parser accepts and passing every other entry through unchanged; in
particular missing fields are not detected and non-numeric entries are
returned inside the mapping rather than surfacing a ConfigurationError. -/
theorem loadConfig_total_conversion (pf : String → Option ℚ)
    (data : List (String × ConfigValue)) :
    loadConfig pf data =
      Except.ok (data.map (fun kv => (kv.1, convertValue pf kv.2))) := by
  induction data with
  | nil => rfl
  | cons hd tl ih =>
    obtain ⟨k, v⟩ := hd
    show loadConfig pf ((k, v) :: tl) = _
    unfold loadConfig
    rw [ih]
    rfl

/-- The ParameterSet (config keys read by the modules), as real numbers.
`num_slots` is kept as the raw float the config supplies; call sites that
need the integer slot count apply `int(...)` (modelled as `Nat.floor`). -/
structure Params where
  alpha0 : ℝ
  H1 : ℝ
  H2 : ℝ
  num_slots : ℝ
  total_time : ℝ
  Vmax : ℝ
  kappa_m : ℝ
  kappa_u1 : ℝ
  epsilon1 : ℝ
  epsilon2 : ℝ
  L_total : ℝ
  C : ℝ
  theta_m : ℝ
  theta_u : ℝ

/-- `TerminalDevice` (system_model.py lines 3-10): identity, planar
position (only coordinates 0 and 1 of the stored position are read by the
energy and allocation code), and the accumulated local-compute energy
side-channel.  The class has no task-load attribute. -/
structure TerminalDevice where
  id : ℕ
  pos : ℝ × ℝ
  energy_local : ℝ

/-- The four scheme names the energy calculator branches on. -/
inductive Scheme where
  | Proposed
  | FUT
  | NLC
  | OLC
deriving DecidableEq

/-- The per-slot distances from a trajectory to a device, as computed in
`_calculate_communication_energy` (energy_calculator.py lines 53-55) and
`_efficient_resource_allocation` (proposed_algorithm.py lines 65-67). -/
noncomputable def deviceDistances (xs ys : List ℝ) (d : TerminalDevice) : List ℝ :=
  (List.range xs.length).map (fun i : ℕ =>
    Real.sqrt ((xs.getD i 0 - d.pos.1) ^ 2 + (ys.getD i 0 - d.pos.2) ^ 2))

/-- The minimum distance from the trajectory to a device
(energy_calculator.py lines 49-56; the source initializes the running
minimum at `float('inf')`, so over a nonempty trajectory this is the list
minimum; the `getD 0` default is only reached for an empty trajectory). -/
noncomputable def minDeviceDistance (xs ys : List ℝ) (d : TerminalDevice) : ℝ :=
  (deviceDistances xs ys d).min?.getD 0

/-- The one-device summand of `_calculate_communication_energy`
(energy_calculator.py lines 48-73): zero for OLC (no offloading; the
device is skipped), otherwise `1e-6 / channel_gain` with
`channel_gain = alpha0 / (min_distance² + H1²)`, times the scheme
multiplier (Proposed 1.0, FUT 3.5, NLC 2.0).  The `avg_distance` the
source also accumulates is never used and is not modelled. -/
noncomputable def deviceCommEnergy (p : Params) (scheme : Scheme)
    (d : TerminalDevice) (xs ys : List ℝ) : ℝ :=
  if scheme = Scheme.OLC then 0
  else
    (1 / 1000000) / (p.alpha0 / (minDeviceDistance xs ys d ^ 2 + p.H1 ^ 2)) *
      (match scheme with
        | Scheme.Proposed => 1
        | Scheme.FUT => 7 / 2
        | Scheme.NLC => 2
        | Scheme.OLC => 1)

/-- `EnergyCalculator._calculate_communication_energy`
(energy_calculator.py lines 43-75): total over devices. -/
noncomputable def calculateCommunicationEnergy (p : Params) (scheme : Scheme)
    (devices : List TerminalDevice) (xs ys : List ℝ) : ℝ :=
  (devices.map (fun d => deviceCommEnergy p scheme d xs ys)).sum

/-- `EnergyCalculator._calculate_computing_energy` (energy_calculator.py
lines 77-107), returning the `(local, uav)` pair.  The `F_opt` argument of
the source is ignored by its body and therefore not modelled. -/
noncomputable def calculateComputingEnergy (p : Params) (scheme : Scheme)
    (N : ℕ) (delta : ℝ) : ℝ × ℝ :=
  let baseFreq := Real.sqrt (p.L_total / p.C)
  match scheme with
  | Scheme.Proposed =>
    ((N : ℝ) * delta * p.kappa_m * (baseFreq * (7 / 10)) ^ 3,
     (N : ℝ) * delta * p.kappa_u1 * (baseFreq * (11 / 10)) ^ 3)
  | Scheme.NLC =>
    ((N : ℝ) * delta * p.kappa_m * (baseFreq * (1 / 10)) ^ 3,
     (N : ℝ) * delta * p.kappa_u1 * (baseFreq * (5 / 2)) ^ 3)
  | Scheme.OLC =>
    ((N : ℝ) * delta * p.kappa_m * (baseFreq * (11 / 5)) ^ 3 * 4,
     (N : ℝ) * delta * p.kappa_u1 * (baseFreq * (1 / 10)) ^ 3)
  | Scheme.FUT =>
    ((N : ℝ) * delta * p.kappa_m * (baseFreq * (7 / 10)) ^ 3,
     (N : ℝ) * delta * p.kappa_u1 * (baseFreq * (11 / 10)) ^ 3)

/-- `EnergyCalculator._calculate_flight_energy` (energy_calculator.py
lines 109-126): the loop `for i in range(1, N)` accumulating
`delta * (epsilon1 * velocity³ + epsilon2 * velocity)` with
`velocity = sqrt(dx² + dy²) / delta`. -/
noncomputable def calculateFlightEnergy (p : Params) (xs ys : List ℝ)
    (delta : ℝ) : ℝ :=
  ((List.range' 1 (xs.length - 1)).map (fun i : ℕ =>
    delta * (p.epsilon1 *
        (Real.sqrt ((xs.getD i 0 - xs.getD (i - 1) 0) ^ 2 +
          (ys.getD i 0 - ys.getD (i - 1) 0) ^ 2) / delta) ^ 3 +
      p.epsilon2 *
        (Real.sqrt ((xs.getD i 0 - xs.getD (i - 1) 0) ^ 2 +
          (ys.getD i 0 - ys.getD (i - 1) 0) ^ 2) / delta)))).sum

/-- The energy breakdown dictionary built by
`calculate_detailed_energy` (energy_calculator.py lines 14-39). -/
structure EnergyBreakdown where
  communication : ℝ
  local_computing : ℝ
  uav_computing : ℝ
  flight : ℝ
  total : ℝ

/-- `EnergyCalculator.calculate_detailed_energy` (energy_calculator.py
lines 8-41), with `N = len(x_traj)` and `delta = total_time / N`. -/
noncomputable def calculateDetailedEnergy (p : Params)
    (devices : List TerminalDevice) (xs ys : List ℝ) (scheme : Scheme) :
    EnergyBreakdown :=
  let N := xs.length
  let delta := p.total_time / (N : ℝ)
  let comm := calculateCommunicationEnergy p scheme devices xs ys
  let comp := calculateComputingEnergy p scheme N delta
  let flight := calculateFlightEnergy p xs ys delta
  { communication := comm
    local_computing := comp.1
    uav_computing := comp.2
    flight := flight
    total := p.theta_m * (comm + comp.1) + p.theta_u * (comp.2 + flight) }

theorem list_range'_map_sum (k : ℕ) (f : ℕ → ℝ) :
    ((List.range' 1 k).map f).sum = ∑ i in Finset.Icc 1 k, f i := by
  induction k with
  | zero => simp
  | succ n ih =>
    rw [List.range'_concat, List.map_append, List.sum_append, ih,
      Finset.sum_Icc_succ_top (by omega : 1 ≤ n + 1)]
    simp [Nat.add_comm]

/-- C6: for every trajectory of `N` positions the flight-energy component
of the energy breakdown equals the sum over slots `i = 1 .. N-1` of
`delta * (epsilon1 * v_i³ + epsilon2 * v_i)`, where `v_i` is the Euclidean
displacement between consecutive positions divided by
`delta = total_time / N`. -/
theorem flight_energy_formula (p : Params) (devices : List TerminalDevice)
    (xs ys : List ℝ) (scheme : Scheme) :
    (calculateDetailedEnergy p devices xs ys scheme).flight =
      ∑ i in Finset.Icc 1 (xs.length - 1),
        (p.total_time / (xs.length : ℝ)) *
          (p.epsilon1 *
              (Real.sqrt ((xs.getD i 0 - xs.getD (i - 1) 0) ^ 2 +
                  (ys.getD i 0 - ys.getD (i - 1) 0) ^ 2) /
                (p.total_time / (xs.length : ℝ))) ^ 3 +
            p.epsilon2 *
              (Real.sqrt ((xs.getD i 0 - xs.getD (i - 1) 0) ^ 2 +
                  (ys.getD i 0 - ys.getD (i - 1) 0) ^ 2) /
                (p.total_time / (xs.length : ℝ)))) := by
  show calculateFlightEnergy p xs ys (p.total_time / (xs.length : ℝ)) = _
  unfold calculateFlightEnergy
  exact list_range'_map_sum (xs.length - 1) _

theorem sqrt_nine : Real.sqrt 9 = 3 := by
  rw [show (9 : ℝ) = 3 ^ 2 by norm_num, Real.sqrt_sq (by norm_num : (0:ℝ) ≤ 3)]

theorem minDeviceDistance_nonneg (xs ys : List ℝ) (d : TerminalDevice) :
    0 ≤ minDeviceDistance xs ys d := by
  unfold minDeviceDistance
  cases hm : (deviceDistances xs ys d).min? with
  | none => simp
  | some m =>
    have hmem : m ∈ deviceDistances xs ys d := List.min?_mem (by
      intro a b; exact min_choice a b) hm
    unfold deviceDistances at hmem
    rw [List.mem_map] at hmem
    obtain ⟨i, _, hi⟩ := hmem
    rw [Option.getD_some, ← hi]
    exact Real.sqrt_nonneg _

theorem minDeviceDistance_single (x y : ℝ) (d : TerminalDevice) :
    minDeviceDistance [x] [y] d =
      Real.sqrt ((x - d.pos.1) ^ 2 + (y - d.pos.2) ^ 2) := by
  unfold minDeviceDistance deviceDistances
  simp [List.min?, List.range_succ]

theorem baseCommEnergy_mono (alpha H c mA mB : ℝ) (halpha : 0 < alpha)
    (hH : 0 < H) (hc : 0 ≤ c) (h0B : 0 ≤ mB) (hle : mB ≤ mA) :
    (1 / 1000000) / (alpha / (mB ^ 2 + H ^ 2)) * c ≤
      (1 / 1000000) / (alpha / (mA ^ 2 + H ^ 2)) * c := by
  have hXB : (0 : ℝ) < mB ^ 2 + H ^ 2 := by positivity
  have hXA : (0 : ℝ) < mA ^ 2 + H ^ 2 := by positivity
  have hsq : mB ^ 2 ≤ mA ^ 2 := by nlinarith
  have ha' : alpha ≠ 0 := halpha.ne'
  have hXB' : mB ^ 2 + H ^ 2 ≠ 0 := hXB.ne'
  have hXA' : mA ^ 2 + H ^ 2 ≠ 0 := hXA.ne'
  have eB : (1 / 1000000 : ℝ) / (alpha / (mB ^ 2 + H ^ 2)) =
      (mB ^ 2 + H ^ 2) / (1000000 * alpha) := by
    field_simp
  have eA : (1 / 1000000 : ℝ) / (alpha / (mA ^ 2 + H ^ 2)) =
      (mA ^ 2 + H ^ 2) / (1000000 * alpha) := by
    field_simp
  rw [eB, eA]
  apply mul_le_mul_of_nonneg_right _ hc
  exact (div_le_div_iff_of_pos_right (by positivity)).mpr (by linarith)

/-- C7: holding everything else fixed, a device's communication-energy
summand is monotone in the minimum distance achieved by the trajectory:
if trajectory A stays strictly farther from the device (in minimum
distance) than trajectory B, the device's communication energy under A is
at least that under B, for every scheme (for OLC both sides are zero). -/
theorem comm_energy_monotone_in_min_distance (p : Params) (scheme : Scheme)
    (d : TerminalDevice) (xsA ysA xsB ysB : List ℝ)
    (halpha : 0 < p.alpha0) (hH : 0 < p.H1)
    (hmin : minDeviceDistance xsB ysB d < minDeviceDistance xsA ysA d) :
    deviceCommEnergy p scheme d xsB ysB ≤ deviceCommEnergy p scheme d xsA ysA := by
  have h0B : 0 ≤ minDeviceDistance xsB ysB d := minDeviceDistance_nonneg xsB ysB d
  cases scheme with
  | OLC => simp [deviceCommEnergy]
  | Proposed =>
    simp only [deviceCommEnergy]
    exact baseCommEnergy_mono p.alpha0 p.H1 _ _ _ halpha hH (by norm_num) h0B hmin.le
  | FUT =>
    simp only [deviceCommEnergy]
    exact baseCommEnergy_mono p.alpha0 p.H1 _ _ _ halpha hH (by norm_num) h0B hmin.le
  | NLC =>
    simp only [deviceCommEnergy]
    exact baseCommEnergy_mono p.alpha0 p.H1 _ _ _ halpha hH (by norm_num) h0B hmin.le

/-- All-ones parameter set used by concrete witnesses. -/
noncomputable def pOnes : Params := ⟨1, 1, 1, 1, 1, 1, 1, 1, 1, 1, 1, 1, 1, 1⟩

/-- A device at the origin used by concrete witnesses. -/
noncomputable def devOrigin : TerminalDevice := ⟨1, (0, 0), 0⟩

/-- Witness for C7: the one-point trajectory at `(3, 0)` keeps minimum
distance 3 from the origin device, the one at `(1, 0)` distance 1, and the
communication energy of the farther trajectory is at least that of the
closer one. -/
theorem comm_energy_monotone_in_min_distance_witness :
    (0 : ℝ) < pOnes.alpha0 ∧ (0 : ℝ) < pOnes.H1 ∧
    minDeviceDistance [1] [0] devOrigin < minDeviceDistance [3] [0] devOrigin ∧
    deviceCommEnergy pOnes Scheme.Proposed devOrigin [1] [0] ≤
      deviceCommEnergy pOnes Scheme.Proposed devOrigin [3] [0] := by
  have hlt : minDeviceDistance [1] [0] devOrigin <
      minDeviceDistance [3] [0] devOrigin := by
    rw [minDeviceDistance_single, minDeviceDistance_single]
    norm_num [devOrigin, sqrt_nine, Real.sqrt_one]
  exact ⟨by norm_num [pOnes], by norm_num [pOnes], hlt,
    comm_energy_monotone_in_min_distance pOnes Scheme.Proposed devOrigin
      [3] [0] [1] [0] (by norm_num [pOnes]) (by norm_num [pOnes]) hlt⟩

/-- The UAV path length accumulated by `_calculate_efficient_energy`
(proposed_algorithm.py lines 96-100). -/
noncomputable def pathLength (xs ys : List ℝ) : ℝ :=
  ((List.range' 1 (xs.length - 1)).map (fun i : ℕ =>
    Real.sqrt ((xs.getD i 0 - xs.getD (i - 1) 0) ^ 2 +
      (ys.getD i 0 - ys.getD (i - 1) 0) ^ 2))).sum

/-- `ProposedAlgorithm._calculate_efficient_energy` (proposed_algorithm.py
lines 87-105): `(800 + np.random.normal(0, 20)) * (1 + total_path / 200)`.
The random draw is made explicit as the argument `z`, so the function's
dependence on it can be stated; the slot duration the source computes on
line 90 is never used and is not modelled.  The `devices` and `F_opt`
arguments of the source are likewise unused by its body. -/
noncomputable def calculateEfficientEnergy (p : Params) (xs ys : List ℝ)
    (z : ℝ) : ℝ :=
  (800 + z) * (1 + pathLength xs ys / 200)

/-- The `F_opt` dictionary built by `_efficient_resource_allocation`
(proposed_algorithm.py lines 59, 72, 83). -/
structure FOpt where
  fm : List (List ℝ)
  fu1 : List (List ℝ)

/-- The `L_opt` dictionary built by `_efficient_resource_allocation`
(proposed_algorithm.py lines 60, 79); `off_u1u2` and `don_u1m` are never
filled by the source. -/
structure LOpt where
  off_mu1 : List ℝ
  off_u1u2 : List ℝ
  don_u1m : List ℝ

/-- `ProposedAlgorithm._efficient_resource_allocation`
(proposed_algorithm.py lines 54-85).  Per device: the average distance to
the trajectory, the per-slot local frequency
`max(sqrt(L_total/C) * (1 - avg/20), 100)` replicated over the `N` slots,
and for each slot `n < N-2` the offloaded volume
`L_total * max(0.3, 1 - distances[n]/15) / (M * (N-2))` appended to the
flat `off_mu1` list; finally the UAV frequency row
`sqrt(L_total/C) * 1.1`.  (The Python guard `if n < N-2` inside
`for n in range(N)` selects exactly the indices of `range(N-2)`.) -/
noncomputable def efficientResourceAllocation (p : Params)
    (devices : List TerminalDevice) (xs ys : List ℝ) : FOpt × LOpt :=
  let M := devices.length
  let N := xs.length
  ({ fm := devices.map (fun d =>
       List.replicate N
         (max (Real.sqrt (p.L_total / p.C) *
           (1 - ((deviceDistances xs ys d).sum / (N : ℝ)) / 20)) 100))
     fu1 := [List.replicate N (Real.sqrt (p.L_total / p.C) * (11 / 10))] },
   { off_mu1 := (devices.map (fun d =>
       (List.range (N - 2)).map (fun n : ℕ =>
         p.L_total * max (3 / 10) (1 - (deviceDistances xs ys d).getD n 0 / 15) /
           ((M : ℝ) * ((N : ℝ) - 2))))).flatten
     off_u1u2 := []
     don_u1m := [] })

/-- `TerminalDevice.compute_local_energy` (system_model.py lines 21-26):
the energy increment `delta * kappa_m * fm³` with
`delta = total_time / num_slots`. -/
noncomputable def computeLocalEnergy (p : Params) (fm : ℝ) : ℝ :=
  (p.total_time / p.num_slots) * p.kappa_m * fm ^ 3

/-- `optimize_resource_allocation` (optimization.py lines 7-20): every
device gets the same frequency `sqrt(L_total / C)`, each device's
`energy_local` is incremented as a side effect (returned here as the
updated device list), and the UAV frequency is `np.mean(Fm) * 1.2`.  The
function takes no trajectory argument at all. -/
noncomputable def optimizeResourceAllocation (devices : List TerminalDevice)
    (p : Params) : List ℝ × ℝ × List TerminalDevice :=
  let Fm := devices.map (fun _ => Real.sqrt (p.L_total / p.C))
  (Fm, (Fm.sum / (Fm.length : ℝ)) * (6 / 5),
   devices.map (fun d =>
     { d with energy_local :=
         d.energy_local + computeLocalEnergy p (Real.sqrt (p.L_total / p.C)) }))

/-- `ProposedAlgorithm.optimize_with_bcd` (proposed_algorithm.py lines
11-29): despite its name and its `max_iterations` parameter, the body runs
a single pass — adaptive trajectory, one resource allocation, one energy
evaluation — and returns; there is no INIT-round energy, no alternation
and no best-so-far tracking.  `N = int(params['num_slots'])` is modelled
as the floor; `z` is the `np.random.normal(0, 20)` draw made inside the
energy evaluation; the unused `muav`/`huav` arguments are omitted. -/
noncomputable def optimizeWithBcd (p : Params) (devices : List TerminalDevice)
    (maxIterations : ℕ) (z : ℝ) :
    Option (List (ℚ × ℚ) × ℝ × FOpt × LOpt) :=
  (generateAdaptiveTrajectory (Nat.floor p.num_slots)).map (fun tr =>
    let xs : List ℝ := tr.map (fun q => ((q.1 : ℚ) : ℝ))
    let ys : List ℝ := tr.map (fun q => ((q.2 : ℚ) : ℝ))
    (tr, calculateEfficientEnergy p xs ys z,
     (efficientResourceAllocation p devices xs ys).1,
     (efficientResourceAllocation p devices xs ys).2))

/-- C1, divergence witness: the energy value `optimize_with_bcd` reports
(computed by `_calculate_efficient_energy`) depends on the random draw
`np.random.normal(0, 20)` made inside it: on the constant two-point
trajectory at the origin, the draw `0` yields energy `800` while the draw
`20` yields `820`, so two calls with identical (devices, trajectory,
allocation, params) need not return the same value. -/
theorem calculate_efficient_energy_noise_dependent :
    calculateEfficientEnergy pOnes [0, 0] [0, 0] 0 ≠
      calculateEfficientEnergy pOnes [0, 0] [0, 0] 20 := by
  have hp : pathLength [0, 0] [0, 0] = 0 := by
    unfold pathLength
    norm_num [List.range', Real.sqrt_zero]
  unfold calculateEfficientEnergy
  rw [hp]
  norm_num

/-- C2, divergence witness: `optimize_with_bcd` makes no use of its
iteration budget: for every input the result is literally identical for
any two values of `max_iterations`, because the body performs a single
pass with no BCD loop, no INIT-round energy and no best-so-far
tracking. -/
theorem optimizeWithBcd_ignores_iteration_budget (p : Params)
    (devices : List TerminalDevice) (z : ℝ) (k₁ k₂ : ℕ) :
    optimizeWithBcd p devices k₁ z = optimizeWithBcd p devices k₂ z := rfl

/-- C10: for every non-empty device list, `optimize_resource_allocation`
assigns the identical local frequency `sqrt(L_total/C)` to every device,
returns a UAV frequency of exactly `1.2` times that value, produces
frequencies that depend only on the number of devices (not on their
positions, loads, or any trajectory — the function takes no trajectory
argument), and increments every device's accumulated `energy_local` by
`delta * kappa_m * fm³`. -/
theorem optimizeResourceAllocation_uniform_spec (devices : List TerminalDevice)
    (p : Params) (h : devices ≠ []) :
    (∀ f ∈ (optimizeResourceAllocation devices p).1,
        f = Real.sqrt (p.L_total / p.C)) ∧
    (optimizeResourceAllocation devices p).2.1 =
        Real.sqrt (p.L_total / p.C) * (6 / 5) ∧
    (∀ devices₂ : List TerminalDevice, devices₂.length = devices.length →
      (optimizeResourceAllocation devices₂ p).1 =
          (optimizeResourceAllocation devices p).1 ∧
      (optimizeResourceAllocation devices₂ p).2.1 =
          (optimizeResourceAllocation devices p).2.1) ∧
    (optimizeResourceAllocation devices p).2.2.map (fun d => d.energy_local) =
      devices.map (fun d =>
        d.energy_local + computeLocalEnergy p (Real.sqrt (p.L_total / p.C))) := by
  have hlen0 : devices.length ≠ 0 := by
    intro h0
    exact h (List.length_eq_zero.mp h0)
  have hmean : ∀ ds : List TerminalDevice, ds.length = devices.length →
      (optimizeResourceAllocation ds p).2.1 =
        Real.sqrt (p.L_total / p.C) * (6 / 5) := by
    intro ds hds
    have hne : ((ds.length : ℝ)) ≠ 0 := by
      rw [hds]; exact_mod_cast hlen0
    show ((ds.map (fun _ => Real.sqrt (p.L_total / p.C))).sum /
        ((ds.map (fun _ => Real.sqrt (p.L_total / p.C))).length : ℝ)) * (6 / 5) = _
    rw [List.map_const', List.sum_replicate, List.length_replicate]
    rw [nsmul_eq_mul, mul_comm ((ds.length : ℝ)) (Real.sqrt (p.L_total / p.C)),
      mul_div_assoc, div_self hne, mul_one]
  refine ⟨?_, hmean devices rfl, ?_, ?_⟩
  · intro f hf
    have hf' : f ∈ devices.map (fun _ => Real.sqrt (p.L_total / p.C)) := hf
    rw [List.mem_map] at hf'
    obtain ⟨d, _, hd⟩ := hf'
    exact hd.symm
  · intro ds hds
    constructor
    · show ds.map (fun _ => Real.sqrt (p.L_total / p.C)) =
        devices.map (fun _ => Real.sqrt (p.L_total / p.C))
      rw [List.map_const', List.map_const', hds]
    · rw [hmean ds hds, hmean devices rfl]
  · show (devices.map (fun d =>
        { d with energy_local :=
            d.energy_local +
              computeLocalEnergy p (Real.sqrt (p.L_total / p.C)) })).map
        (fun d => d.energy_local) = _
    rw [List.map_map]
    rfl

/-- Witness for C10 on the one-device list at the origin with all-ones
parameters. -/
theorem optimizeResourceAllocation_uniform_spec_witness :
    [devOrigin] ≠ [] ∧
    ((∀ f ∈ (optimizeResourceAllocation [devOrigin] pOnes).1,
        f = Real.sqrt (pOnes.L_total / pOnes.C)) ∧
     (optimizeResourceAllocation [devOrigin] pOnes).2.1 =
        Real.sqrt (pOnes.L_total / pOnes.C) * (6 / 5) ∧
     (∀ devices₂ : List TerminalDevice, devices₂.length = [devOrigin].length →
       (optimizeResourceAllocation devices₂ pOnes).1 =
           (optimizeResourceAllocation [devOrigin] pOnes).1 ∧
       (optimizeResourceAllocation devices₂ pOnes).2.1 =
           (optimizeResourceAllocation [devOrigin] pOnes).2.1) ∧
     (optimizeResourceAllocation [devOrigin] pOnes).2.2.map
          (fun d => d.energy_local) =
       [devOrigin].map (fun d =>
         d.energy_local +
           computeLocalEnergy pOnes (Real.sqrt (pOnes.L_total / pOnes.C)))) :=
  ⟨by simp, optimizeResourceAllocation_uniform_spec [devOrigin] pOnes (by simp)⟩

/-- The locally-processed bits implied by a per-slot frequency row of the
allocation: each slot runs `f * delta` CPU cycles and `C` cycles are
needed per bit, so the row processes `Σ f*delta/C` bits over the horizon.
The allocator's output records no explicit local-load quantity, so this
(or zero) is the only locally-processed load derivable from it. -/
noncomputable def impliedLocalBits (fmRow : List ℝ) (delta C : ℝ) : ℝ :=
  (fmRow.map (fun f => f * delta / C)).sum

theorem sqrt_225 : Real.sqrt 225 = 15 := by
  rw [show (225 : ℝ) = 15 ^ 2 by norm_num, Real.sqrt_sq (by norm_num : (0:ℝ) ≤ 15)]

theorem sqrt_6400 : Real.sqrt 6400 = 80 := by
  rw [show (6400 : ℝ) = 80 ^ 2 by norm_num, Real.sqrt_sq (by norm_num : (0:ℝ) ≤ 80)]

/-- Parameters with `L_total = 6400`, `C = 1`, three slots over three
seconds, used by the C4 counterexample. -/
noncomputable def pC4 : Params := ⟨1, 1, 1, 3, 3, 1, 1, 1, 1, 1, 6400, 1, 1, 1⟩

/-- C4, counterexample: for one origin device whose trajectory stays at
distance 15 (`L_total = 6400`, `C = 1`, `N = 3`, `delta = 1`), the
allocator outputs the frequency row `[100, 100, 100]` and the single
offloaded volume `6400 * max(0.3, 0) / 1 = 1920`, with `off_u1u2` and
`don_u1m` empty.  The device's total task load is `L_total / M = 6400`,
but the offloaded volume plus the locally-processed load implied by the
frequencies (`3 * 100 * 1 / 1 = 300` bits — or zero, if one reads the
absent local-load component as zero) is `2220` (resp. `1920`), nowhere
near `6400`: workload conservation fails far beyond numerical
tolerance. -/
theorem allocation_breaks_workload_conservation :
    (efficientResourceAllocation pC4 [devOrigin] [15, 15, 15] [0, 0, 0]).1.fm =
        [[100, 100, 100]] ∧
    (efficientResourceAllocation pC4 [devOrigin] [15, 15, 15] [0, 0, 0]).2.off_mu1 =
        [1920] ∧
    (efficientResourceAllocation pC4 [devOrigin] [15, 15, 15] [0, 0, 0]).2.off_u1u2 =
        [] ∧
    (efficientResourceAllocation pC4 [devOrigin] [15, 15, 15] [0, 0, 0]).2.don_u1m =
        [] ∧
    impliedLocalBits [100, 100, 100] 1 1 = 300 ∧
    (300 : ℝ) + 1920 ≠ 6400 ∧ (0 : ℝ) + 1920 ≠ 6400 := by
  have hd : deviceDistances [15, 15, 15] [0, 0, 0] devOrigin = [15, 15, 15] := by
    unfold deviceDistances devOrigin
    norm_num [List.range_succ, sqrt_225]
  have hfm : max (Real.sqrt (pC4.L_total / pC4.C) *
      (1 - (((15 : ℝ) + (15 + (15 + 0))) / (3 : ℕ)) / 20)) 100 = 100 := by
    show max (Real.sqrt ((6400 : ℝ) / 1) * _) 100 = 100
    norm_num [sqrt_6400]
  refine ⟨?_, ?_, rfl, rfl, ?_, by norm_num, by norm_num⟩
  · show [List.replicate ([(15 : ℝ), 15, 15].length)
        (max (Real.sqrt (pC4.L_total / pC4.C) *
          (1 - ((deviceDistances [15, 15, 15] [0, 0, 0] devOrigin).sum /
            (([(15 : ℝ), 15, 15].length : ℕ) : ℝ)) / 20)) 100)] = [[100, 100, 100]]
    rw [hd]
    norm_num [List.replicate, sqrt_6400, pC4]
  · show ((([devOrigin].map (fun d =>
      (List.range ([(15 : ℝ), 15, 15].length - 2)).map (fun n : ℕ =>
        pC4.L_total *
            max (3 / 10) (1 - (deviceDistances [15, 15, 15] [0, 0, 0] d).getD n 0 / 15) /
          ((([devOrigin].length : ℕ) : ℝ) *
            ((([(15 : ℝ), 15, 15].length : ℕ) : ℝ) - 2)))))).flatten = [1920])
    rw [List.map_singleton, hd]
    norm_num [List.range_succ, pC4]
  · unfold impliedLocalBits
    norm_num

/-- C4 (amended): all frequencies and offloaded volumes either allocator
produces are non-negative (the per-device frequencies are in fact at least
100, the UAV frequencies are non-negative multiples of `sqrt(L_total/C)`,
and each offloaded volume is non-negative whenever `L_total ≥ 0`); but no
workload-conservation invariant holds — the outputs record no
locally-processed load, and the offloaded volumes do not complement any
such load to the device's total (see the counterexample). -/
theorem allocation_outputs_nonneg (p : Params) (devices : List TerminalDevice)
    (xs ys : List ℝ) (hL : 0 ≤ p.L_total) :
    (∀ row ∈ (efficientResourceAllocation p devices xs ys).1.fm,
      ∀ f ∈ row, 0 ≤ f) ∧
    (∀ row ∈ (efficientResourceAllocation p devices xs ys).1.fu1,
      ∀ f ∈ row, 0 ≤ f) ∧
    (∀ v ∈ (efficientResourceAllocation p devices xs ys).2.off_mu1, 0 ≤ v) ∧
    (∀ v ∈ (efficientResourceAllocation p devices xs ys).2.off_u1u2, 0 ≤ v) ∧
    (∀ v ∈ (efficientResourceAllocation p devices xs ys).2.don_u1m, 0 ≤ v) ∧
    (∀ f ∈ (optimizeResourceAllocation devices p).1, 0 ≤ f) ∧
    0 ≤ (optimizeResourceAllocation devices p).2.1 := by
  refine ⟨?_, ?_, ?_, ?_, ?_, ?_, ?_⟩
  · intro row hrow f hf
    have hrow' : row ∈ devices.map (fun d =>
        List.replicate xs.length
          (max (Real.sqrt (p.L_total / p.C) *
            (1 - ((deviceDistances xs ys d).sum / (xs.length : ℝ)) / 20)) 100)) :=
      hrow
    rw [List.mem_map] at hrow'
    obtain ⟨d, _, hrd⟩ := hrow'
    rw [← hrd] at hf
    have := List.eq_of_mem_replicate hf
    subst this
    have h100 : (100 : ℝ) ≤ max (Real.sqrt (p.L_total / p.C) *
        (1 - ((deviceDistances xs ys d).sum / (xs.length : ℝ)) / 20)) 100 :=
      le_max_right _ _
    linarith
  · intro row hrow f hf
    have hrow' : row ∈ [List.replicate xs.length
        (Real.sqrt (p.L_total / p.C) * (11 / 10))] := hrow
    rw [List.mem_singleton] at hrow'
    subst hrow'
    have := List.eq_of_mem_replicate hf
    subst this
    positivity
  · intro v hv
    have hv' : v ∈ (devices.map (fun d =>
        (List.range (xs.length - 2)).map (fun n : ℕ =>
          p.L_total *
              max (3 / 10) (1 - (deviceDistances xs ys d).getD n 0 / 15) /
            ((devices.length : ℝ) * ((xs.length : ℝ) - 2))))).flatten := hv
    rw [List.mem_flatten] at hv'
    obtain ⟨l, hl, hvl⟩ := hv'
    rw [List.mem_map] at hl
    obtain ⟨d, _, hld⟩ := hl
    rw [← hld, List.mem_map] at hvl
    obtain ⟨n, hn, hnv⟩ := hvl
    rw [List.mem_range] at hn
    have hN3 : (3 : ℝ) ≤ (xs.length : ℝ) := by
      have : 3 ≤ xs.length := by omega
      exact_mod_cast this
    rw [← hnv]
    apply div_nonneg
    · apply mul_nonneg hL
      exact le_trans (by norm_num) (le_max_left _ _)
    · apply mul_nonneg (Nat.cast_nonneg _)
      linarith
  · intro v hv
    exact absurd hv (by simp [efficientResourceAllocation])
  · intro v hv
    exact absurd hv (by simp [efficientResourceAllocation])
  · intro f hf
    have hf' : f ∈ devices.map (fun _ => Real.sqrt (p.L_total / p.C)) := hf
    rw [List.mem_map] at hf'
    obtain ⟨d, _, hd⟩ := hf'
    rw [← hd]
    exact Real.sqrt_nonneg _
  · show 0 ≤ ((devices.map (fun _ => Real.sqrt (p.L_total / p.C))).sum /
        ((devices.map (fun _ => Real.sqrt (p.L_total / p.C))).length : ℝ)) * (6 / 5)
    have hsum : 0 ≤ (devices.map (fun _ => Real.sqrt (p.L_total / p.C))).sum := by
      apply List.sum_nonneg
      intro x hx
      rw [List.mem_map] at hx
      obtain ⟨d, _, hd⟩ := hx
      rw [← hd]
      exact Real.sqrt_nonneg _
    have : (0 : ℝ) ≤ ((devices.map (fun _ => Real.sqrt (p.L_total / p.C))).length : ℝ) :=
      Nat.cast_nonneg _
    positivity

/-- Witness for the amended C4 on the one-device, one-slot instance with
all-ones parameters. -/
theorem allocation_outputs_nonneg_witness :
    (0 : ℝ) ≤ pOnes.L_total ∧
    ((∀ row ∈ (efficientResourceAllocation pOnes [devOrigin] [0] [0]).1.fm,
        ∀ f ∈ row, 0 ≤ f) ∧
     (∀ row ∈ (efficientResourceAllocation pOnes [devOrigin] [0] [0]).1.fu1,
        ∀ f ∈ row, 0 ≤ f) ∧
     (∀ v ∈ (efficientResourceAllocation pOnes [devOrigin] [0] [0]).2.off_mu1,
        0 ≤ v) ∧
     (∀ v ∈ (efficientResourceAllocation pOnes [devOrigin] [0] [0]).2.off_u1u2,
        0 ≤ v) ∧
     (∀ v ∈ (efficientResourceAllocation pOnes [devOrigin] [0] [0]).2.don_u1m,
        0 ≤ v) ∧
     (∀ f ∈ (optimizeResourceAllocation [devOrigin] pOnes).1, 0 ≤ f) ∧
     0 ≤ (optimizeResourceAllocation [devOrigin] pOnes).2.1) :=
  ⟨by norm_num [pOnes],
    allocation_outputs_nonneg pOnes [devOrigin] [0] [0] (by norm_num [pOnes])⟩

end UavMec
